import Mathlib

/-!
Verification development for the RS10X code-analysis backend (`src/server.py`
and `src/summary_writer.py`).

The embedding models the job-state subsystem of `server.py`:

* the in-memory job dictionary `analysis_jobs` (tier 2) and the Supabase
  tables `analysis_jobs` / `analysis_reports` (tier 1, modelled as explicit
  row lists with the upsert/insert/delete semantics of the calls made by the
  code);
* `run_analysis` (the background Job Controller), driven by an environment
  trace that supplies, for each stage, what its `subprocess.run` call did:
  the script was missing, the process returned (with some exit code, having
  written its output file or not), or the call raised (timeout / spawn
  failure), and optionally a point at which a non-stage-local exception
  aborts the loop (the outer `except` branch);
* the API handlers `get_status`, `get_results`, `cleanup`, `ask_followup`,
  and the `summary_writer.py` main program that `ask_followup` shells out to.

Report contents are abstracted to their file names (presence of an artifact);
timestamps are abstracted to a single `Nat` tick supplied to the run.
-/

namespace RS10X

/-- What one `subprocess.run` invocation of a stage did, as observed by
`run_analysis` (src/server.py lines 199-216): the script path did not exist
(nothing runs), the process returned with an exit code (the Boolean records
whether it wrote its `--output` file), or the call raised an exception —
`TimeoutExpired` or a spawn failure — with the given message (the Boolean
records whether a partial output file was left behind). -/
inductive StageEvent where
  | missing : StageEvent
  | ran : Int → Bool → StageEvent
  | raised : String → Bool → StageEvent
deriving DecidableEq, Repr

/-- One row of the stage table `agents` in `run_analysis`
(src/server.py lines 174-181): script name, report file name, status
message, and progress checkpoint. -/
structure Agent where
  script : String
  reportFile : String
  statusMsg : String
  checkpoint : Nat
deriving DecidableEq, Repr

/-- The stage table of `run_analysis`, src/server.py lines 174-181. -/
def agents : List Agent :=
  [ ⟨"bouncer.py", "bouncer_report.md", "Checking codebase health", 10⟩,
    ⟨"map_maker.py", "map_report.md", "Mapping folder structure", 25⟩,
    ⟨"translator_ai.py", "translator_report.md", "Creating business dictionary", 45⟩,
    ⟨"flow_tracer.py", "flow_report.md", "Tracing data flows", 60⟩,
    ⟨"risk_spotter.py", "risk_report.md", "Identifying risks", 75⟩,
    ⟨"safety_inspector.py", "safety_report.md", "Checking test coverage", 90⟩ ]

/-- The stage table indexed by position. -/
def agentsF (i : Fin 6) : Agent := agents.get (Fin.cast (by decide) i)

/-- The timeout passed to every stage's `subprocess.run` call
(src/server.py line 205): a uniform 300 seconds for all six stages. -/
def stageTimeoutSeconds : Nat := 300

/-- Whether a stage process of the given duration (seconds) is forcibly
terminated by `subprocess.run`: exactly when it exceeds the uniform
300-second `timeout=` argument of src/server.py line 205. -/
def timesOut (duration : Nat) : Bool := stageTimeoutSeconds < duration

/-- Modelled from the spec: the per-stage timeout budgets `[60,120,300,300,300,180]`
that the Stage Definition Table is said to carry.  The source stage table
(src/server.py lines 174-181) has no timeout column; this list exists only to
be compared with the uniform `stageTimeoutSeconds` the code actually uses. -/
def specStageBudgets : List Nat := [60, 120, 300, 300, 300, 180]

/-- `agent_script.replace('.py', '').replace('_', ' ').title()` evaluated on
the six static script names of the stage table (src/server.py line 210). -/
def agentTitle : String → String
  | "bouncer.py" => "Bouncer"
  | "map_maker.py" => "Map Maker"
  | "translator_ai.py" => "Translator Ai"
  | "flow_tracer.py" => "Flow Tracer"
  | "risk_spotter.py" => "Risk Spotter"
  | "safety_inspector.py" => "Safety Inspector"
  | s => s

/-- Whether a stage event left the stage's `--output` file on disk. -/
def wroteOutput : StageEvent → Bool
  | .missing => false
  | .ran _ w => w
  | .raised _ w => w

/-- The in-memory job record, the dictionary stored in `analysis_jobs`
(src/server.py lines 321-334).  `reports` holds the file names of the
collected report artifacts (contents abstracted away); `completed_at` is the
tick at which line 243 ran, if it ever did.  The path fields (`temp_dir`,
`output_dir`, `codebase_path`) are not modelled. -/
structure Job where
  id : String
  status : String
  progress : Nat
  completed : Bool
  question : String
  agents_completed : List String
  errors : List String
  reports : List String
  error : Option String
  completed_at : Option Nat
deriving DecidableEq, Repr

/-- A row of the Supabase `analysis_jobs` table, with the columns touched by
`create_job_in_db` and `save_job_to_db` (src/server.py lines 82-124).
`created_at`/`updated_at` are not modelled. -/
structure DbJob where
  job_id : String
  status : String
  current_step : Nat
  total_steps : Nat
  current_step_name : String
  progress : Nat
  completed : Bool
  error : Option String
  completed_at : Option Nat
  question : String
deriving DecidableEq, Repr

/-- The durable tier: the `analysis_jobs` rows plus the `analysis_reports`
rows (keyed `(job_id, filename)`; report contents abstracted away). -/
structure DbState where
  jobs : List DbJob
  reports : List (String × String)
deriving DecidableEq, Repr

def emptyDb : DbState := ⟨[], []⟩

/-- Look up the `analysis_jobs` row for a job id. -/
def dbFindJob (id : String) (rows : List DbJob) : Option DbJob :=
  rows.find? (fun r => r.job_id == id)

/-- The row produced by one `save_job_to_db` call (src/server.py lines
82-104).  The upsert payload contains `status` (derived:
`completed`/`error`/`analyzing`), `current_step = progress // 10`,
`total_steps = 10`, `current_step_name = step_name or status`, `progress`
and `completed`; the `error` column only when an error is passed, and
`completed_at` only when `completed` is true — absent columns keep their
old value on an existing row (`old`), and default on a fresh insert. -/
def applySave (job_id status : String) (progress : Nat) (step_name : Option String)
    (completed : Bool) (error : Option String) (now : Nat) (old : Option DbJob) : DbJob :=
  let base : DbJob := match old with
    | some r => r
    | none =>
        { job_id := job_id, status := "", current_step := 0, total_steps := 10,
          current_step_name := "", progress := 0, completed := false,
          error := none, completed_at := none, question := "" }
  { base with
    job_id := job_id
    status := if completed then "completed" else if error.isSome then "error" else "analyzing"
    current_step := progress / 10
    total_steps := 10
    current_step_name := step_name.getD status
    progress := progress
    completed := completed
    error := if error.isSome then error else base.error
    completed_at := if completed then some now else base.completed_at }

/-- Upsert of one `save_job_to_db` payload into the `analysis_jobs` rows:
`job_id` is the table's conflict key, so at most one row matches — it is
merged in place via `applySave`; with no match the payload is inserted as a
fresh row. -/
def dbSaveRows (job_id status : String) (progress : Nat) (step_name : Option String)
    (completed : Bool) (error : Option String) (now : Nat) : List DbJob → List DbJob
  | [] => [applySave job_id status progress step_name completed error now none]
  | r :: rs =>
      if r.job_id == job_id then
        applySave job_id status progress step_name completed error now (some r) :: rs
      else r :: dbSaveRows job_id status progress step_name completed error now rs

/-- `save_job_to_db` (src/server.py lines 82-104) as a durable-tier update. -/
def dbSaveJob (db : DbState) (job_id status : String) (progress : Nat)
    (step_name : Option String) (completed : Bool) (error : Option String)
    (now : Nat) : DbState :=
  { db with jobs := dbSaveRows job_id status progress step_name completed error now db.jobs }

/-- The fresh row inserted by `create_job_in_db` (src/server.py lines 107-124). -/
def createRow (id q : String) : DbJob :=
  { job_id := id, status := "pending", current_step := 0, total_steps := 10,
    current_step_name := "Starting analysis", progress := 0, completed := false,
    error := none, completed_at := none, question := q }

/-- `create_job_in_db`: a plain insert; on a duplicate key the raised error is
swallowed (lines 123-124), leaving the table unchanged. -/
def dbCreateJob (db : DbState) (id q : String) : DbState :=
  if (dbFindJob id db.jobs).isSome then db
  else { db with jobs := db.jobs ++ [createRow id q] }

/-- Upsert of one report row keyed `(job_id, filename)`; with contents
abstracted away this just ensures the key is present. -/
def insertReport (id f : String) : List (String × String) → List (String × String)
  | [] => [(id, f)]
  | p :: ps => if p.1 == id && p.2 == f then p :: ps else p :: insertReport id f ps

/-- `save_reports_to_db` (src/server.py lines 127-139): upsert each report
row. -/
def dbSaveReports (db : DbState) (id : String) (files : List String) : DbState :=
  { db with reports := files.foldl (fun rs f => insertReport id f rs) db.reports }

/-- `delete_job_from_db` (src/server.py lines 155-163): delete the job's
report rows and its job row. -/
def dbDeleteJob (id : String) (db : DbState) : DbState :=
  { jobs := db.jobs.filter (fun r => !(r.job_id == id)),
    reports := db.reports.filter (fun p => !(p.1 == id)) }

/-- The filenames fetched by `get_reports_from_db` (src/server.py lines
142-152) for a job id. -/
def dbReportsFor (id : String) (db : DbState) : List String :=
  (db.reports.filter (fun p => p.1 == id)).map (fun p => p.2)

/-- The state threaded through one `run_analysis` execution: the in-memory
job dictionary entry, the durable tier, and — for the temporal claim — the
sequence of progress values written so far (each logical update point writes
the same value to the in-memory record and, via `save_job_to_db`, to the
durable tier; it is recorded once). -/
structure RunState where
  job : Job
  db : DbState
  writes : List Nat
deriving DecidableEq, Repr

/-- The environment of one `run_analysis` execution: per-stage events, the
event of the `summary_writer` invocation (used only when the question is
non-empty), and optionally the point at which a non-stage-local exception
fires — `cut = some k` aborts the loop after `k` stages and takes the outer
`except` branch (src/server.py lines 261-265) with message `fatalMsg`. -/
structure RunInput where
  events : Fin 6 → StageEvent
  summaryEvent : StageEvent
  cut : Option (Fin 7)
  fatalMsg : String

/-- One iteration of the stage loop of `run_analysis` (src/server.py lines
187-216): set status and `progress = checkpoint - 10`, persist; run the
stage — on a normal return append the title-cased agent name to
`agents_completed` (line 210, regardless of the exit code), on a raised
exception append `"<script>: <message>"` to `errors` (line 212), on a
missing script do nothing; then set `progress = checkpoint` and persist. -/
def stepStage (now : Nat) (id : String) (s : RunState) (p : Agent × StageEvent) : RunState :=
  let a := p.1
  let j1 := { s.job with status := a.statusMsg, progress := a.checkpoint - 10 }
  let db1 := dbSaveJob s.db id a.statusMsg (a.checkpoint - 10) (some a.statusMsg)
    false none now
  let j2 := match p.2 with
    | .missing => j1
    | .ran _ _ =>
        { j1 with agents_completed := j1.agents_completed ++ [agentTitle a.script] }
    | .raised msg _ =>
        { j1 with errors := j1.errors ++ [a.script ++ ": " ++ msg] }
  let j3 := { j2 with progress := a.checkpoint }
  let db2 := dbSaveJob db1 id a.statusMsg a.checkpoint (some a.statusMsg) false none now
  { job := j3, db := db2, writes := s.writes ++ [a.checkpoint - 10, a.checkpoint] }

/-- The stage loop as a fold over (stage, event) pairs. -/
def runStagesList (now : Nat) (id : String) (s : RunState)
    (l : List (Agent × StageEvent)) : RunState :=
  l.foldl (stepStage now id) s

/-- The stage table paired with the trace's per-stage events, in table order. -/
def stagePairs (ev : Fin 6 → StageEvent) : List (Agent × StageEvent) :=
  (List.finRange 6).map (fun i => (agentsF i, ev i))

/-- The report files present in the output directory after the six stages:
exactly those whose stage event wrote the `--output` file. -/
def reportsWritten (ev : Fin 6 → StageEvent) : List String :=
  (List.finRange 6).filterMap
    (fun i => if wroteOutput (ev i) then some (agentsF i).reportFile else none)

/-- The `summary_writer` step of `run_analysis` (src/server.py lines
219-238), taken only when the question is non-empty: set status and
`progress = 95`, persist, run the script; only a raised exception leaves a
trace, as an `errors` entry (line 238). -/
def summaryStep (now : Nat) (id q : String) (e : StageEvent) (s : RunState) : RunState :=
  if q = "" then s
  else
    let j1 := { s.job with status := "Generating executive brief", progress := 95 }
    let db1 := dbSaveJob s.db id "Generating executive brief" 95
      (some "Generating executive brief") false none now
    let j2 := match e with
      | .raised msg _ => { j1 with errors := j1.errors ++ ["summary_writer: " ++ msg] }
      | _ => j1
    { job := j2, db := db1, writes := s.writes ++ [95] }

/-- Whether `executive_brief.md` exists after the optional summary step. -/
def briefWritten (q : String) (e : StageEvent) : Bool :=
  !(q == "") && wroteOutput e

/-- The completion block of `run_analysis` (src/server.py lines 240-259):
set `progress = 100`, status, `completed = True`, `completed_at = now`;
collect into `reports` every stage report file that exists on disk plus
`executive_brief.md` if present; persist the final record and the reports. -/
def finishStep (now : Nat) (id : String) (ev : Fin 6 → StageEvent) (q : String)
    (se : StageEvent) (s : RunState) : RunState :=
  let reports := reportsWritten ev ++
    (if briefWritten q se then ["executive_brief.md"] else [])
  let j := { s.job with
    progress := 100
    status := "Analysis complete"
    completed := true
    completed_at := some now
    reports := reports }
  let db1 := dbSaveJob s.db id "Analysis complete" 100 (some "Complete") true none now
  let db2 := dbSaveReports db1 id reports
  { job := j, db := db2, writes := s.writes ++ [100] }

/-- The outer `except` branch of `run_analysis` (src/server.py lines
261-265): set the status string to the error text, record the error, set
`completed = True` (but not `completed_at`), and persist with the current
progress value and the error — `save_job_to_db` is called with its
`completed` parameter left `False`. -/
def errorStep (now : Nat) (id msg : String) (s : RunState) : RunState :=
  let j := { s.job with
    status := "Error: " ++ msg
    error := some msg
    completed := true }
  let db1 := dbSaveJob s.db id ("Error: " ++ msg) s.job.progress none false (some msg) now
  { job := j, db := db1, writes := s.writes ++ [s.job.progress] }

/-- The in-memory record created by the `analyze` handler
(src/server.py lines 321-334). -/
def initJob (id q : String) : Job :=
  { id := id, status := "Starting analysis", progress := 0, completed := false,
    question := q, agents_completed := [], errors := [], reports := [],
    error := none, completed_at := none }

/-- Job creation (src/server.py lines 321-337): the in-memory record plus
`create_job_in_db`; progress 0 is the first written value. -/
def startState (id q : String) (db : DbState) : RunState :=
  { job := initJob id q, db := dbCreateJob db id q, writes := [0] }

/-- `run_analysis` (src/server.py lines 170-265) over a creation-time durable
tier `db0`: run the stage loop over the table, optionally the summary step,
then the completion block — unless the trace injects a non-stage-local
exception after `k` stages, in which case the outer `except` branch runs
instead. -/
def runAnalysis (id q : String) (inp : RunInput) (now : Nat) (db0 : DbState) : RunState :=
  let s0 := startState id q db0
  match inp.cut with
  | some k => errorStep now id inp.fatalMsg
      (runStagesList now id s0 ((stagePairs inp.events).take k))
  | none => finishStep now id inp.events q inp.summaryEvent
      (summaryStep now id q inp.summaryEvent (runStagesList now id s0 (stagePairs inp.events)))

/-- Look up a job id in the in-memory `analysis_jobs` dictionary. -/
def memFind (id : String) (mem : List (String × Job)) : Option Job :=
  (mem.find? (fun p => p.1 == id)).map (fun p => p.2)

/-- The first statement of `run_analysis` (src/server.py line 172):
`job = analysis_jobs[job_id]` — a plain subscript, which raises `KeyError`
when the record has already been deleted from the dictionary. -/
def runAnalysisFetch (mem : List (String × Job)) (id : String) : Except String Job :=
  match memFind id mem with
  | some j => .ok j
  | none => .error "KeyError"

/-- The JSON body returned by `get_status` (src/server.py lines 347-378).
`current_step`/`total_steps` are `Option`s because only the durable-tier
branch of the handler puts those keys in the response. -/
structure StatusResponse where
  id : String
  status : String
  progress : Nat
  completed : Bool
  current_step : Option Nat
  total_steps : Option Nat
  agents_completed : List String
  errors : List String
deriving DecidableEq, Repr

/-- The durable-tier branch of `get_status` (src/server.py lines 354-364):
formats the Supabase row; `agents_completed` and `errors` are hard-coded to
empty lists. -/
def statusFromDb (row : DbJob) : StatusResponse :=
  { id := row.job_id
    status := row.current_step_name
    progress := row.progress
    completed := row.completed
    current_step := some row.current_step
    total_steps := some row.total_steps
    agents_completed := []
    errors := [] }

/-- The in-memory branch of `get_status` (src/server.py lines 367-376):
formats the in-memory record, with its actual `agents_completed` and
`errors`, and without `current_step`/`total_steps` keys. -/
def statusFromMem (j : Job) : StatusResponse :=
  { id := j.id
    status := j.status
    progress := j.progress
    completed := j.completed
    current_step := none
    total_steps := none
    agents_completed := j.agents_completed
    errors := j.errors }

/-- The whole server state visible to the HTTP handlers: the in-memory job
dictionary, the durable tier, and the set of job ids whose temporary
directories still exist on disk. -/
structure ServerState where
  mem : List (String × Job)
  db : DbState
  temps : List String
deriving DecidableEq, Repr

/-- `get_status` (src/server.py lines 347-378) with Supabase configured and
healthy: the durable tier is consulted first; on a missing row the handler
falls through to the in-memory dictionary; a miss in both is a 404. -/
def getStatus (s : ServerState) (id : String) : Except (Nat × String) StatusResponse :=
  match dbFindJob id s.db.jobs with
  | some row => .ok (statusFromDb row)
  | none =>
    match memFind id s.mem with
    | some j => .ok (statusFromMem j)
    | none => .error (404, "Job not found")

/-- The JSON body returned by `get_results` (src/server.py lines 381-414). -/
structure ResultsResponse where
  id : String
  reports : List String
  question : String
  completed_at : Option Nat
  errors : List String
deriving DecidableEq, Repr

/-- The durable-tier branch of `get_results` (src/server.py lines 388-399):
a 400 unless the row's `completed` column is true; `errors` hard-coded
empty. -/
def resultsFromDb (row : DbJob) (reps : List String) : Except (Nat × String) ResultsResponse :=
  if row.completed then
    .ok { id := row.job_id, reports := reps, question := row.question,
          completed_at := row.completed_at, errors := [] }
  else .error (400, "Analysis not complete")

/-- The in-memory branch of `get_results` (src/server.py lines 402-412):
a 400 unless the record's `completed` flag is true. -/
def resultsFromMem (j : Job) : Except (Nat × String) ResultsResponse :=
  if j.completed then
    .ok { id := j.id, reports := j.reports, question := j.question,
          completed_at := j.completed_at, errors := j.errors }
  else .error (400, "Analysis not complete")

/-- `get_results` (src/server.py lines 381-414) with Supabase configured and
healthy. -/
def getResults (s : ServerState) (id : String) : Except (Nat × String) ResultsResponse :=
  match dbFindJob id s.db.jobs with
  | some row => resultsFromDb row (dbReportsFor id s.db)
  | none =>
    match memFind id s.mem with
    | some j => resultsFromMem j
    | none => .error (404, "Job not found")

/-- `cleanup` (src/server.py lines 534-548): if the job is in the in-memory
dictionary, remove its temporary directory and delete the entry; then
`delete_job_from_db`; respond `success` (the handler only errors when one of
those operations raises, which the model does not). -/
def cleanup (s : ServerState) (id : String) : ServerState × Bool :=
  let s1 :=
    if (memFind id s.mem).isSome then
      { s with
        mem := s.mem.filter (fun p => !(p.1 == id))
        temps := s.temps.filter (fun t => !(t == id)) }
    else s
  ({ s1 with db := dbDeleteJob id s1.db }, true)

/-- Whether the first list is a prefix of the second (on characters). -/
def startsWithL : List Char → List Char → Bool
  | [], _ => true
  | _ :: _, [] => false
  | a :: as, b :: bs => a == b && startsWithL as bs

/-- Whether `pat` occurs as a contiguous sublist of the second list. -/
def containsSubL (pat : List Char) : List Char → Bool
  | [] => startsWithL pat []
  | c :: cs => startsWithL pat (c :: cs) || containsSubL pat cs

/-- Python's `pat in s` substring test. -/
def containsStr (s pat : String) : Bool := containsSubL pat.data s.data

/-- Python's `'\n'.join(lines)`. -/
def joinLines : List String → String
  | [] => ""
  | [l] => l
  | l :: ls => l ++ "\n" ++ joinLines ls

/-- Python's `str.strip()`: drop leading and trailing whitespace. -/
def trimStr (s : String) : String :=
  String.mk (((s.data.dropWhile Char.isWhitespace).reverse.dropWhile
    Char.isWhitespace).reverse)

/-- `'=' * 60` / `'=' * 50` / `'-' * 50` / `'=' * 20`. -/
def eqLine60 : String := String.mk (List.replicate 60 '=')

def eqLine50 : String := String.mk (List.replicate 50 '=')

def dashLine50 : String := String.mk (List.replicate 50 '-')

def eqLine20 : String := String.mk (List.replicate 20 '=')

/-- `REPORT_FILES` of `summary_writer.py` (lines 39-46): file name and
label, in its own order. -/
def reportFiles : List (String × String) :=
  [ ("bouncer_report.md", "Health Check"),
    ("map_report.md", "Codebase Structure"),
    ("translator_report.md", "Business Entities"),
    ("risk_report.md", "Risk Analysis"),
    ("safety_report.md", "Test Coverage"),
    ("flow_report.md", "API & Data Flows") ]

/-- `load_reports` (summary_writer.py lines 49-64): for each of the six
files, its content when present, else the `"[Report not found]"` marker.
`present i` says whether file `i` (in `reportFiles` order) exists;
`contents i` is its text. -/
def loadReports (present : Fin 6 → Bool) (contents : Fin 6 → String) : Fin 6 → String :=
  fun i => if present i then contents i else "[Report not found]"

/-- The `'Test Coverage: ...'` line built from a matched coverage line
(summary_writer.py line 151). -/
def coverageLine (line : String) : String :=
  "Test Coverage: " ++
    (if containsStr line ":**" then trimStr ((line.splitOn ":**").getD 1 "")
     else "See report")

/-- `generate_summary_basic` (summary_writer.py lines 116-164) at line
granularity.  `loaded 0` is the Health Check content, `loaded 4` the Test
Coverage content (indices in `reportFiles` order). -/
def basicSummaryLines (loaded : Fin 6 → String) (q : String) : List String :=
  let health := loaded 0
  let safety := loaded 4
  [ "EXECUTIVE SUMMARY", eqLine50, "",
    "Question: " ++ q, "",
    "NOTE: This is a basic summary. For a detailed prose analysis,",
    "set your ANTHROPIC_API_KEY environment variable.",
    "", dashLine50, "" ] ++
  [ if containsStr health "READY FOR ANALYSIS" then
      "Codebase Status: HEALTHY - Ready for analysis"
    else if containsStr health "NOT READY" then
      "Codebase Status: ISSUES FOUND - Needs attention"
    else "Codebase Status: Unknown" ] ++
  [ "" ] ++
  (if containsStr safety "Estimated Coverage:" then
    match (safety.splitOn "\n").find? (fun l => containsStr l "Estimated Coverage:") with
    | some line => [coverageLine line]
    | none => []
   else []) ++
  [ "", dashLine50, "",
    "To get a full AI-powered executive summary that directly",
    "answers your question, run:",
    "",
    "  set ANTHROPIC_API_KEY=your-key",
    "  py summary_writer.py [reports_dir] --question \"your question\"",
    "" ]

/-- `format_final_report` (summary_writer.py lines 167-196) at line
granularity; the trailing `""` is the final newline of the f-string. -/
def finalReportLines (summary : List String) (q dirName ts : String) : List String :=
  [ "EXECUTIVE BRIEF", eqLine60, "",
    "Prepared: " ++ ts,
    "Reports Source: " ++ dirName,
    "",
    "Client Question: " ++ q,
    "", eqLine60, "" ] ++
  summary ++
  [ "", eqLine60,
    "End of Executive Brief",
    "",
    "Supporting documentation available in:",
    "- bouncer_report.md (Health Check)",
    "- map_report.md (Structure Analysis)",
    "- translator_report.md (Business Dictionary)",
    "- risk_report.md (Risk Assessment)",
    "- safety_report.md (Test Coverage)",
    "- flow_report.md (Data Flows)",
    "" ]

/-- `summary_writer.py`'s `main` (lines 199-283) as invoked by
`ask_followup`: a reports directory that exists, a non-empty question, no
`--output` flag, so everything goes to stdout.  Returns the exit code and
the stdout lines.  `hasAI`/`aiFails` select the AI branch and its failure
path (the AI answer itself, its error text, the timestamp and the directory
name are opaque inputs); when `hasAI` is false, the no-API-key message of
line 268 is printed (the missing-library variant of line 270 differs only
in that one message and is not modelled separately). -/
def summaryMain (present : Fin 6 → Bool) (contents : Fin 6 → String) (q : String)
    (hasAI aiFails : Bool) (aiText : List String) (aiErr ts dirName : String) :
    Nat × List String :=
  let loaded := loadReports present contents
  let found := (List.finRange 6).countP
    (fun i => !(containsStr (loaded i) "[Report not found]"))
  let out1 := [ "[SUMMARY] Loading analysis reports...",
                "[SUMMARY] Found " ++ toString found ++ "/6 reports" ]
  if found = 0 then
    (1, out1 ++ ["[ERROR] No reports found. Run the orchestrator first."])
  else
    let out2 := out1 ++ ["[SUMMARY] Answering: " ++ q]
    let branch : List String × List String :=
      if hasAI then
        if aiFails then
          (out2 ++ [ "[SUMMARY] Using AI to generate executive brief...",
                     "[ERROR] AI generation failed: " ++ aiErr,
                     "[SUMMARY] Falling back to basic summary..." ],
           basicSummaryLines loaded q)
        else
          (out2 ++ ["[SUMMARY] Using AI to generate executive brief..."], aiText)
      else
        (out2 ++ ["[SUMMARY] No API key found. Generating basic summary..."],
         basicSummaryLines loaded q)
    (0, branch.1 ++ [""] ++ finalReportLines branch.2 q dirName ts)

/-- The answer post-processing of `ask_followup` (src/server.py lines
514-527): `result.stdout` split back into lines (the trailing newline of
the last `print` contributes a final empty line); if any line mentions
`EXECUTIVE BRIEF`, drop everything up to and including the first separator
line (20+ `=` signs) at index `> 5`; join and strip. -/
def askFollowupAnswer (stdoutLines : List String) : String :=
  let ls := stdoutLines ++ [""]
  let ls2 :=
    if ls.any (fun l => containsStr l "EXECUTIVE BRIEF") then
      ls.drop
        (((ls.enum.find? (fun p => decide (5 < p.1) && containsStr p.2 eqLine20)).map
          (fun p => p.1 + 1)).getD 0)
    else ls
  trimStr (joinLines ls2)

/-- `ask_followup` (src/server.py lines 466-531) on a terminal job, after
its existence/completion checks: shell out to `summary_writer.py` on the
job's reports directory (whose present files are the job's persisted
artifacts) and return HTTP 200 with the post-processed stdout — the
subprocess's exit code is never inspected. -/
def askFollowup (present : Fin 6 → Bool) (contents : Fin 6 → String) (q : String)
    (hasAI aiFails : Bool) (aiText : List String) (aiErr ts dirName : String) :
    Nat × String :=
  (200, askFollowupAnswer
    (summaryMain present contents q hasAI aiFails aiText aiErr ts dirName).2)

/-! Concrete traces used by the counterexamples and witnesses below. -/

/-- A trace in which every stage's process runs and exits 0, writing its
report. -/
def allOk : Fin 6 → StageEvent := fun _ => .ran 0 true

/-- A trace in which stage 3 (`translator_ai.py`) exits with code `c` and
writes no output, while every other stage succeeds. -/
def c1events (c : Int) : Fin 6 → StageEvent :=
  fun i => if i = 2 then .ran c false else .ran 0 true

/-- The run of `run_analysis` on `c1events c`, no question. -/
def c1run (c : Int) : RunState :=
  runAnalysis "job1" "" ⟨c1events c, .ran 0 true, none, ""⟩ 7 emptyDb

/-- A trace in which stage 1 (`bouncer.py`) exits non-zero but still wrote
its report file, while every other stage succeeds. -/
def c3events : Fin 6 → StageEvent :=
  fun i => if i = 0 then .ran 1 true else .ran 0 true

/-- The run of `run_analysis` on `c3events`, no question. -/
def c3run : RunState :=
  runAnalysis "job1" "" ⟨c3events, .ran 0 true, none, ""⟩ 7 emptyDb

/-- A trace in which stage `k`'s `subprocess.run` call raises (the timeout
path) with message `msg`, leaving a partial output file iff `w`, while every
other stage succeeds. -/
def c4events (k : Fin 6) (msg : String) (w : Bool) : Fin 6 → StageEvent :=
  fun i => if i = k then .raised msg w else .ran 0 true

/-- The run of `run_analysis` on `c4events k msg w`, no question. -/
def c4run (k : Fin 6) (msg : String) (w : Bool) : RunState :=
  runAnalysis "job1" "" ⟨c4events k msg w, .ran 0 true, none, ""⟩ 7 emptyDb

/-- The run in which stage 1 raised `"boom"` and the rest succeeded. -/
def runErrStage : RunState :=
  runAnalysis "job1" "" ⟨c4events 0 "boom" false, .ran 0 true, none, ""⟩ 7 emptyDb

/-- A run that hits the fatal-error path after two stages. -/
def c6run : RunState :=
  runAnalysis "job1" "" ⟨allOk, .ran 0 true, some 2, "disk gone"⟩ 7 emptyDb

/-- The progress-write sequence of a run cut short by the fatal-error path
after `k` stages: the per-stage checkpoint writes so far, then the error
path's write of the unchanged current progress. -/
def cutWrites : Fin 7 → List Nat
  | ⟨0, _⟩ => [0, 0]
  | ⟨1, _⟩ => [0, 0, 10, 10]
  | ⟨2, _⟩ => [0, 0, 10, 15, 25, 25]
  | ⟨3, _⟩ => [0, 0, 10, 15, 25, 35, 45, 45]
  | ⟨4, _⟩ => [0, 0, 10, 15, 25, 35, 45, 50, 60, 60]
  | ⟨5, _⟩ => [0, 0, 10, 15, 25, 35, 45, 50, 60, 65, 75, 75]
  | ⟨_ + 6, _⟩ => [0, 0, 10, 15, 25, 35, 45, 50, 60, 65, 75, 80, 90, 90]

/-- A server state holding one freshly created job in both tiers, with its
temporary directory present. -/
def s9 : ServerState :=
  ⟨[("job1", initJob "job1" "")], dbCreateJob emptyDb "job1" "", ["job1"]⟩

/-- Modelled from the spec: the spec's notion that a stage "succeeded" —
its `StageResult.status == success`, i.e. the process exited 0.  The code
keeps no per-stage status; this predicate exists to state the spec's
artifact iff success claim against the code's behaviour. -/
def stageSuccess : StageEvent → Bool
  | .ran c _ => c == 0
  | _ => false

/-! Helper lemmas about the run model. -/

theorem stepStage_job_completed_at (now : Nat) (id : String) (s : RunState)
    (p : Agent × StageEvent) :
    (stepStage now id s p).job.completed_at = s.job.completed_at := by
  obtain ⟨a, e⟩ := p
  cases e <;> rfl

theorem runStagesList_job_completed_at (now : Nat) (id : String)
    (l : List (Agent × StageEvent)) (s : RunState) :
    (runStagesList now id s l).job.completed_at = s.job.completed_at := by
  induction l generalizing s with
  | nil => rfl
  | cons hd tl ih =>
      rw [show runStagesList now id s (hd :: tl)
            = runStagesList now id (stepStage now id s hd) tl from rfl,
        ih, stepStage_job_completed_at]

theorem reportFile_inj (i j : Fin 6) :
    (agentsF i).reportFile = (agentsF j).reportFile → i = j := by
  revert i j; decide

theorem reportFile_ne_brief (i : Fin 6) :
    (agentsF i).reportFile ≠ "executive_brief.md" := by
  revert i; decide

theorem mem_reportsWritten (ev : Fin 6 → StageEvent) (i : Fin 6) :
    (agentsF i).reportFile ∈ reportsWritten ev ↔ wroteOutput (ev i) = true := by
  unfold reportsWritten
  rw [List.mem_filterMap]
  constructor
  · rintro ⟨j, -, hj⟩
    by_cases hw : wroteOutput (ev j) = true
    · rw [if_pos hw] at hj
      obtain rfl := reportFile_inj j i (Option.some.inj hj)
      exact hw
    · rw [if_neg hw] at hj
      exact absurd hj (by simp)
  · intro h
    exact ⟨i, List.mem_finRange i, by rw [if_pos h]⟩

theorem runAnalysis_job_reports (id q msg : String) (ev : Fin 6 → StageEvent)
    (se : StageEvent) (now : Nat) (db0 : DbState) :
    (runAnalysis id q ⟨ev, se, none, msg⟩ now db0).job.reports =
      reportsWritten ev ++ (if briefWritten q se then ["executive_brief.md"] else []) := rfl

/-! Claim C1. -/

/-- C1, counterexample: with stage 3 exiting code 1 (writing no output) and
every other stage succeeding, the job does finish completed with the other
five artifacts, but the `errors` list is empty — not the single entry
referencing stage 3 that the claim asserts.  A non-zero exit is invisible to
`run_analysis`, which never inspects `returncode`. -/
theorem C1_counterexample :
    (c1run 1).job.completed = true ∧
    (c1run 1).job.reports = ["bouncer_report.md", "map_report.md", "flow_report.md",
      "risk_report.md", "safety_report.md"] ∧
    (c1run 1).job.errors = [] ∧
    ¬ ((c1run 1).job.errors.length = 1) := by decide

/-- C1, amended: for any non-zero exit code of stage 3 (others succeeding),
the job finishes with terminal status completed in both tiers and artifacts
for the other five stages, but the errors list stays empty and even the
failing stage is appended to `agents_completed` — a non-zero exit is not
recorded anywhere (only a raised exception during the `subprocess.run` call
would add an `errors` entry). -/
theorem C1_amended (c : Int) (h : c ≠ 0) :
    (c1run c).job.completed = true ∧
    ((dbFindJob "job1" (c1run c).db.jobs).map DbJob.status = some "completed") ∧
    (c1run c).job.errors = [] ∧
    (c1run c).job.reports = ["bouncer_report.md", "map_report.md", "flow_report.md",
      "risk_report.md", "safety_report.md"] ∧
    (c1run c).job.agents_completed = ["Bouncer", "Map Maker", "Translator Ai",
      "Flow Tracer", "Risk Spotter", "Safety Inspector"] :=
  ⟨rfl, rfl, rfl, rfl, rfl⟩

/-- C1, witness for the amended theorem at exit code 1. -/
theorem C1_amended_witness :
    (1 : Int) ≠ 0 ∧
    ((c1run 1).job.completed = true ∧
      ((dbFindJob "job1" (c1run 1).db.jobs).map DbJob.status = some "completed") ∧
      (c1run 1).job.errors = [] ∧
      (c1run 1).job.reports = ["bouncer_report.md", "map_report.md", "flow_report.md",
        "risk_report.md", "safety_report.md"] ∧
      (c1run 1).job.agents_completed = ["Bouncer", "Map Maker", "Translator Ai",
        "Flow Tracer", "Risk Spotter", "Safety Inspector"]) :=
  ⟨by decide, C1_amended 1 (by decide)⟩

/-! Claim C3. -/

/-- C3, counterexample: stage 1 exits non-zero yet wrote its report file,
and the artifact is persisted anyway — refuting "no artifact is persisted
for a stage that exited non-zero".  Collection at src/server.py lines
245-250 keys on file existence alone. -/
theorem C3_counterexample :
    "bouncer_report.md" ∈ c3run.job.reports ∧
    stageSuccess (c3events 0) = false ∧
    wroteOutput (c3events 0) = true := by decide

/-- C3, amended: for every trace (and every stage), an artifact is persisted
for a stage if and only if that stage's process left its output file on
disk, regardless of its exit status — a failing or timed-out stage that
wrote (partial) output still gets an artifact, and a succeeding stage that
wrote nothing gets none. -/
theorem C3_amended (id q msg : String) (ev : Fin 6 → StageEvent) (se : StageEvent)
    (now : Nat) (db0 : DbState) (i : Fin 6) :
    (agentsF i).reportFile ∈ (runAnalysis id q ⟨ev, se, none, msg⟩ now db0).job.reports ↔
      wroteOutput (ev i) = true := by
  rw [runAnalysis_job_reports, List.mem_append, mem_reportsWritten]
  have hne : (agentsF i).reportFile ∉
      (if briefWritten q se then ["executive_brief.md"] else []) := by
    by_cases hb : briefWritten q se = true
    · rw [if_pos hb]
      simp [reportFile_ne_brief i]
    · rw [if_neg hb]
      simp
  constructor
  · rintro (hm | hm)
    · exact hm
    · exact absurd hm hne
  · exact fun hm => Or.inl hm

/-! Claim C4. -/

/-- C4, counterexample: the claim presupposes per-stage configured timeouts
(the Stage Definition Table budgets `[60,120,300,300,300,180]`), but every
stage's `subprocess.run` call hard-codes 300 seconds: a stage-6 process
running 200 seconds exceeds its configured 180-second budget yet is not
terminated. -/
theorem C4_counterexample :
    specStageBudgets.getD 5 0 = 180 ∧ 180 < 200 ∧ timesOut 200 = false := by decide

/-- C4, amended: stage processes are terminated only by the uniform
300-second timeout, and a timeout surfaces as a raised `TimeoutExpired`
caught at src/server.py line 211: the recorded outcome is the single errors
entry `"<script>: <message>"`, not a per-stage `status = timeout` record
with `elapsed_seconds` (no such structure exists).  Every subsequent stage
still executes: all twelve checkpoint writes happen, the other five stages
are appended to `agents_completed`, and the job finishes completed at
progress 100. -/
theorem C4_amended (k : Fin 6) (msg : String) (w : Bool) :
    (c4run k msg w).job.errors = [(agentsF k).script ++ ": " ++ msg] ∧
    (c4run k msg w).job.completed = true ∧
    (c4run k msg w).job.progress = 100 ∧
    (c4run k msg w).writes = [0, 0, 10, 15, 25, 35, 45, 50, 60, 65, 75, 80, 90, 100] ∧
    (c4run k msg w).job.agents_completed =
      ((List.finRange 6).filter (fun i => !(i == k))).map
        (fun i => agentTitle (agentsF i).script) := by
  fin_cases k <;> exact ⟨rfl, rfl, rfl, rfl, rfl⟩

/-! Claim C2. -/

/-- C2, counterexample: after a run in which stage 1's call raised `"boom"`,
a status read served by the durable tier and one served by the in-memory
tier return different answers for the same job: the durable answer reports
`errors = []` and carries `current_step`/`total_steps`, the in-memory answer
reports the actual error entry and has no step fields — the caller can tell
the tiers apart. -/
theorem C2_counterexample :
    ((dbFindJob "job1" runErrStage.db.jobs).map statusFromDb) ≠
      some (statusFromMem runErrStage.job) ∧
    ((dbFindJob "job1" runErrStage.db.jobs).map (fun r => (statusFromDb r).errors)) =
      some [] ∧
    (statusFromMem runErrStage.job).errors = ["bouncer.py: boom"] ∧
    ((dbFindJob "job1" runErrStage.db.jobs).map (fun r => (statusFromDb r).current_step)) =
      some (some 10) ∧
    (statusFromMem runErrStage.job).current_step = none := by decide

/-- C2, amended: the durable-tier status response always reports empty
`errors` and `agents_completed` and includes `current_step`/`total_steps`,
while the in-memory response reports the record's actual lists and omits the
step fields; consequently the two tiers' answers differ — the caller can
tell which tier served the read — whenever the job has any recorded error. -/
theorem C2_amended :
    (∀ row : DbJob, (statusFromDb row).errors = [] ∧
      (statusFromDb row).agents_completed = [] ∧
      (statusFromDb row).current_step = some row.current_step ∧
      (statusFromDb row).total_steps = some row.total_steps) ∧
    (∀ j : Job, (statusFromMem j).errors = j.errors ∧
      (statusFromMem j).agents_completed = j.agents_completed ∧
      (statusFromMem j).current_step = none ∧
      (statusFromMem j).total_steps = none) ∧
    (∀ (row : DbJob) (j : Job), j.errors ≠ [] → statusFromDb row ≠ statusFromMem j) := by
  refine ⟨fun row => ⟨rfl, rfl, rfl, rfl⟩, fun j => ⟨rfl, rfl, rfl, rfl⟩, ?_⟩
  intro row j h heq
  exact h (congrArg StatusResponse.errors heq).symm

/-- C2, witness for the amended theorem: a fresh durable row versus an
in-memory record with one error. -/
theorem C2_amended_witness :
    ({ initJob "a" "" with errors := ["x"] } : Job).errors ≠ [] ∧
    statusFromDb (createRow "a" "") ≠ statusFromMem { initJob "a" "" with errors := ["x"] } :=
  ⟨by decide,
   C2_amended.2.2 (createRow "a" "") { initJob "a" "" with errors := ["x"] } (by decide)⟩

/-! Claim C5. -/

/-- Boolean non-decreasingness of a list of naturals, for kernel
evaluation. -/
def nondecreasingB : List Nat → Bool
  | [] => true
  | [_] => true
  | a :: b :: t => a ≤ b && nondecreasingB (b :: t)

theorem nondecreasingB_iff (l : List Nat) :
    nondecreasingB l = true ↔ List.Chain' (· ≤ ·) l := by
  induction l with
  | nil => simp [nondecreasingB]
  | cons a t ih =>
    cases t with
    | nil => simp [nondecreasingB]
    | cons b t2 =>
      rw [List.chain'_cons, ← ih]
      simp [nondecreasingB, Bool.and_eq_true, decide_eq_true_eq]

theorem summaryStep_writes (now : Nat) (id q : String) (e : StageEvent) (s : RunState) :
    (summaryStep now id q e s).writes = s.writes ++ (if q = "" then [] else [95]) := by
  by_cases hq : q = "" <;> simp [summaryStep, hq]

theorem runAnalysis_writes_none (id q msg : String) (ev : Fin 6 → StageEvent)
    (se : StageEvent) (now : Nat) (db0 : DbState) :
    (runAnalysis id q ⟨ev, se, none, msg⟩ now db0).writes =
      if q = "" then [0, 0, 10, 15, 25, 35, 45, 50, 60, 65, 75, 80, 90, 100]
      else [0, 0, 10, 15, 25, 35, 45, 50, 60, 65, 75, 80, 90, 95, 100] := by
  by_cases hq : q = ""
  · subst hq; rfl
  · rw [if_neg hq]
    show (finishStep now id ev q se (summaryStep now id q se
      (runStagesList now id (startState id q db0) (stagePairs ev)))).writes = _
    rw [show ∀ s, (finishStep now id ev q se s).writes = s.writes ++ [100] from fun s => rfl,
      summaryStep_writes, if_neg hq,
      show (runStagesList now id (startState id q db0) (stagePairs ev)).writes =
        [0, 0, 10, 15, 25, 35, 45, 50, 60, 65, 75, 80, 90] from rfl]
    rfl

theorem runAnalysis_writes_cut (id q msg : String) (ev : Fin 6 → StageEvent)
    (se : StageEvent) (now : Nat) (db0 : DbState) (k : Fin 7) :
    (runAnalysis id q ⟨ev, se, some k, msg⟩ now db0).writes = cutWrites k := by
  fin_cases k <;> rfl

/-- C5: for every job (any id, question, stage-event trace, and whether the
run completes normally or hits the fatal-error path after any number of
stages), the sequence of progress values written — creation, the per-stage
checkpoint writes, the optional summary write, the terminal write — is
non-decreasing and starts at 0; on the normal completion path it ends at
100. -/
theorem C5_progress_monotone (id q msg : String) (ev : Fin 6 → StageEvent)
    (se : StageEvent) (cut : Option (Fin 7)) (now : Nat) (db0 : DbState) :
    List.Chain' (· ≤ ·) (runAnalysis id q ⟨ev, se, cut, msg⟩ now db0).writes ∧
    (runAnalysis id q ⟨ev, se, cut, msg⟩ now db0).writes.head? = some 0 ∧
    (cut = none →
      (runAnalysis id q ⟨ev, se, cut, msg⟩ now db0).writes.getLast? = some 100) := by
  rcases cut with _ | k
  · rw [runAnalysis_writes_none]
    by_cases hq : q = ""
    · rw [if_pos hq]
      exact ⟨(nondecreasingB_iff _).mp (by decide), rfl, fun _ => rfl⟩
    · rw [if_neg hq]
      exact ⟨(nondecreasingB_iff _).mp (by decide), rfl, fun _ => rfl⟩
  · rw [runAnalysis_writes_cut]
    have hall : ∀ j : Fin 7,
        nondecreasingB (cutWrites j) = true ∧ (cutWrites j).head? = some 0 := by decide
    exact ⟨(nondecreasingB_iff _).mp (hall k).1, (hall k).2, fun h => Option.noConfusion h⟩

/-- C5, witness: the theorem applied to a fully successful run with no
question. -/
theorem C5_progress_monotone_witness :
    List.Chain' (· ≤ ·) (runAnalysis "job1" "" ⟨allOk, .ran 0 true, none, ""⟩ 7 emptyDb).writes ∧
    (runAnalysis "job1" "" ⟨allOk, .ran 0 true, none, ""⟩ 7 emptyDb).writes.head? = some 0 ∧
    (runAnalysis "job1" "" ⟨allOk, .ran 0 true, none, ""⟩ 7 emptyDb).writes.getLast? = some 100 :=
  ⟨(C5_progress_monotone "job1" "" "" allOk (.ran 0 true) none 7 emptyDb).1,
   (C5_progress_monotone "job1" "" "" allOk (.ran 0 true) none 7 emptyDb).2.1,
   (C5_progress_monotone "job1" "" "" allOk (.ran 0 true) none 7 emptyDb).2.2 rfl⟩

/-! Claim C6. -/

theorem summaryStep_db (now : Nat) (id q : String) (e : StageEvent) (s : RunState) :
    (summaryStep now id q e s).db =
      if q = "" then s.db
      else dbSaveJob s.db id "Generating executive brief" 95
        (some "Generating executive brief") false none now := by
  by_cases hq : q = "" <;> simp [summaryStep, hq]

/-- C6, counterexample: a run that hits the fatal-error path after two
stages reaches a terminal state — `completed = True` in memory, status
`error` in the durable tier — with `completed_at` never set in either tier,
refuting "whenever the job reaches either terminal status, completed_at is
set". -/
theorem C6_counterexample :
    c6run.job.completed = true ∧
    c6run.job.status = "Error: disk gone" ∧
    c6run.job.completed_at = none ∧
    (dbFindJob "job1" c6run.db.jobs).map DbJob.completed_at = some none ∧
    (dbFindJob "job1" c6run.db.jobs).map DbJob.status = some "error" := by decide

set_option maxHeartbeats 1000000 in
/-- C6, amended: `completed_at` is set exactly once, but only on the normal
completion path — it is `none` at creation, untouched by any prefix of the
stage loop, and set to the completion tick in both tiers by the final block;
on the fatal-error path the job is terminal (`completed = True` in memory)
yet `completed_at` remains unset in both tiers. -/
theorem C6_amended (q msg : String) (ev : Fin 6 → StageEvent) (se : StageEvent)
    (now : Nat) (k : Fin 7) :
    (runAnalysis "job1" q ⟨ev, se, none, msg⟩ now emptyDb).job.completed_at = some now ∧
    (∀ l : List (Agent × StageEvent),
      (runStagesList now "job1" (startState "job1" q emptyDb) l).job.completed_at = none) ∧
    (runAnalysis "job1" q ⟨ev, se, some k, msg⟩ now emptyDb).job.completed = true ∧
    (runAnalysis "job1" q ⟨ev, se, some k, msg⟩ now emptyDb).job.completed_at = none ∧
    (dbFindJob "job1" (runAnalysis "job1" q ⟨ev, se, some k, msg⟩ now emptyDb).db.jobs).map
      DbJob.completed_at = some none ∧
    (dbFindJob "job1" (runAnalysis "job1" q ⟨ev, se, none, msg⟩ now emptyDb).db.jobs).map
      DbJob.completed_at = some (some now) := by
  refine ⟨rfl, ?_, rfl, ?_, ?_, ?_⟩
  · intro l
    rw [runStagesList_job_completed_at]
    rfl
  · show (errorStep now "job1" msg (runStagesList now "job1" (startState "job1" q emptyDb)
      ((stagePairs ev).take k))).job.completed_at = none
    rw [show ∀ s, (errorStep now "job1" msg s).job.completed_at = s.job.completed_at
        from fun s => rfl,
      runStagesList_job_completed_at]
    rfl
  · fin_cases k <;> rfl
  · rw [show (runAnalysis "job1" q ⟨ev, se, none, msg⟩ now emptyDb).db.jobs =
      dbSaveRows "job1" "Analysis complete" 100 (some "Complete") true none now
        (summaryStep now "job1" q se (runStagesList now "job1"
          (startState "job1" q emptyDb) (stagePairs ev))).db.jobs from rfl]
    rw [summaryStep_db]
    by_cases hq : q = ""
    · rw [if_pos hq]; rfl
    · rw [if_neg hq]; rfl

/-! Claim C7. -/

/-- C7, counterexample: on an empty reports directory, `summary_writer.py`
exits 1 with only its progress and error messages — the template fallback is
never reached, so it does not "produce valid, non-empty output under all
circumstances including zero available artifacts": no line of the output
mentions the brief at all. -/
theorem C7_counterexample :
    summaryMain (fun _ => false) (fun _ => "") "Is it safe to scale?" false false
        [] "" "t" "d" =
      (1, ["[SUMMARY] Loading analysis reports...", "[SUMMARY] Found 0/6 reports",
           "[ERROR] No reports found. Run the orchestrator first."]) ∧
    ((summaryMain (fun _ => false) (fun _ => "") "Is it safe to scale?" false false
        [] "" "t" "d").2.any
      (fun l => containsStr l "EXECUTIVE BRIEF")) = false := by decide

/-- C7, amended: a follow-up question on a terminal job with zero persisted
artifacts still returns HTTP 200 with a non-empty answer, but that answer is
`summary_writer.py`'s error log ("No reports found"), produced because the
script exits 1 before any summary is generated — not the template fallback,
which is reached only when at least one report is present (then the script
exits 0 and its output contains the executive brief). -/
theorem C7_amended :
    askFollowup (fun _ => false) (fun _ => "") "Is it safe to scale?" false false
        [] "" "t" "d" =
      (200, "[SUMMARY] Loading analysis reports...\n[SUMMARY] Found 0/6 reports\n[ERROR] No reports found. Run the orchestrator first.") ∧
    (askFollowup (fun _ => false) (fun _ => "") "Is it safe to scale?" false false
        [] "" "t" "d").2 ≠ "" ∧
    (summaryMain (fun i => i == 0) (fun _ => "ok") "Is it safe to scale?" false false
        [] "" "t" "d").1 = 0 ∧
    ((summaryMain (fun i => i == 0) (fun _ => "ok") "Is it safe to scale?" false false
        [] "" "t" "d").2.any
      (fun l => containsStr l "EXECUTIVE BRIEF")) = true := by decide

/-! Claim C8. -/

theorem applySave_job_id (job_id status : String) (progress : Nat)
    (step_name : Option String) (completed : Bool) (error : Option String)
    (now : Nat) (old : Option DbJob) :
    (applySave job_id status progress step_name completed error now old).job_id = job_id :=
  rfl

theorem dbSaveRows_find_self (job_id status : String) (progress : Nat)
    (step_name : Option String) (completed : Bool) (error : Option String)
    (now : Nat) (rows : List DbJob) :
    (dbFindJob job_id
      (dbSaveRows job_id status progress step_name completed error now rows)).isSome = true := by
  induction rows with
  | nil => simp [dbSaveRows, dbFindJob, applySave]
  | cons r rs ih =>
    rw [dbSaveRows]
    by_cases h : (r.job_id == job_id) = true
    · rw [if_pos h]
      simp [dbFindJob, applySave]
    · rw [if_neg h]
      simp only [dbFindJob, List.find?_cons] at ih ⊢
      rw [Bool.eq_false_iff.mpr h] at *
      simpa using ih

theorem dbFindJob_delete (id : String) (db : DbState) :
    dbFindJob id (dbDeleteJob id db).jobs = none := by
  rw [dbFindJob, List.find?_eq_none]
  intro r hr
  have := (List.mem_filter.mp hr).2
  simp at this
  simp [this]

theorem memFind_filter_ne (id : String) (mem : List (String × Job)) :
    memFind id (mem.filter (fun p => !(p.1 == id))) = none := by
  have hf : (mem.filter (fun p => !(p.1 == id))).find? (fun p => p.1 == id) = none := by
    rw [List.find?_eq_none]
    intro p hp
    have h2 := (List.mem_filter.mp hp).2
    simp at h2
    simp [h2]
  show ((mem.filter (fun p => !(p.1 == id))).find? (fun p => p.1 == id)).map
    (fun p => p.2) = none
  rw [hf]
  rfl

/-- C8, counterexample: the claim includes jobs deleted while still pending,
but if the record is gone before `run_analysis`'s very first read
(`job = analysis_jobs[job_id]`, src/server.py line 172), that read raises
`KeyError` — a crash, not a no-op. -/
theorem C8_counterexample :
    (memFind "job1" s9.mem).isSome = true ∧
    runAnalysisFetch (cleanup s9 "job1").1.mem "job1" = Except.error "KeyError" :=
  ⟨by decide, rfl⟩

/-- C8, amended: once `run_analysis` has fetched its record (the fetch
succeeds exactly when the record is still present), later deletion never
makes its reads/writes raise — they mutate the detached dictionary object —
but durable-tier writes after a deletion are upserts that re-create the
job's row rather than acting as no-ops: after `delete_job_from_db` removes
the row, any `save_job_to_db` call puts a row for the job back. -/
theorem C8_amended (mem : List (String × Job)) (id : String) (j : Job)
    (h : memFind id mem = some j) :
    runAnalysisFetch mem id = Except.ok j ∧
    (∀ db : DbState, dbFindJob id (dbDeleteJob id db).jobs = none) ∧
    (∀ (db : DbState) (st : String) (p : Nat) (sn : Option String) (c : Bool)
        (e : Option String) (now : Nat),
      (dbFindJob id (dbSaveJob (dbDeleteJob id db) id st p sn c e now).jobs).isSome = true) := by
  refine ⟨?_, fun db => dbFindJob_delete id db, fun db st p sn c e now => ?_⟩
  · show (match memFind id mem with
      | some j => Except.ok j
      | none => Except.error "KeyError") = Except.ok j
    rw [h]
  · exact dbSaveRows_find_self id st p sn c e now _

/-- C8, witness for the amended theorem at the one-job server state. -/
theorem C8_amended_witness :
    runAnalysisFetch s9.mem "job1" = Except.ok (initJob "job1" "") ∧
    (∀ db : DbState, dbFindJob "job1" (dbDeleteJob "job1" db).jobs = none) ∧
    (∀ (db : DbState) (st : String) (p : Nat) (sn : Option String) (c : Bool)
        (e : Option String) (now : Nat),
      (dbFindJob "job1"
        (dbSaveJob (dbDeleteJob "job1" db) "job1" st p sn c e now).jobs).isSome = true) :=
  C8_amended s9.mem "job1" (initJob "job1" "") (by decide)

/-! Claim C9. -/

theorem dbDeleteJob_idem (id : String) (db : DbState) :
    dbDeleteJob id (dbDeleteJob id db) = dbDeleteJob id db := by
  simp [dbDeleteJob, List.filter_filter]

/-- C9: cleanup on an existing job id (present in either tier) reports
success, removes the record from both tiers — a subsequent status query
answers 404 Job not found — and a second cleanup on the same id is
idempotent: it returns success again and leaves the state unchanged. -/
theorem C9_cleanup (s : ServerState) (id : String)
    (h : (memFind id s.mem).isSome = true ∨ (dbFindJob id s.db.jobs).isSome = true) :
    (cleanup s id).2 = true ∧
    getStatus (cleanup s id).1 id = Except.error (404, "Job not found") ∧
    cleanup (cleanup s id).1 id = ((cleanup s id).1, true) := by
  have hmem : memFind id (cleanup s id).1.mem = none := by
    by_cases hm : (memFind id s.mem).isSome = true
    · show memFind id (if (memFind id s.mem).isSome = true then _ else s).mem = none
      rw [if_pos hm]
      exact memFind_filter_ne id s.mem
    · show memFind id (if (memFind id s.mem).isSome = true then _ else s).mem = none
      rw [if_neg hm]
      exact Option.not_isSome_iff_eq_none.mp hm
  have hdb : dbFindJob id (cleanup s id).1.db.jobs = none := dbFindJob_delete id _
  refine ⟨rfl, ?_, ?_⟩
  · rw [getStatus, hdb, hmem]
  · have hidem : dbDeleteJob id (cleanup s id).1.db = (cleanup s id).1.db :=
      dbDeleteJob_idem id _
    show (let s1 := if (memFind id (cleanup s id).1.mem).isSome = true
            then { (cleanup s id).1 with
                   mem := (cleanup s id).1.mem.filter (fun p => !(p.1 == id))
                   temps := (cleanup s id).1.temps.filter (fun t => !(t == id)) }
            else (cleanup s id).1
          ({ s1 with db := dbDeleteJob id s1.db }, true)) = ((cleanup s id).1, true)
    rw [hmem]
    simp only [Option.isSome_none, Bool.false_eq_true, if_false]
    rw [hidem]

/-- C9, witness: the theorem applied to the one-job server state. -/
theorem C9_cleanup_witness :
    (cleanup s9 "job1").2 = true ∧
    getStatus (cleanup s9 "job1").1 "job1" = Except.error (404, "Job not found") ∧
    cleanup (cleanup s9 "job1").1 "job1" = ((cleanup s9 "job1").1, true) :=
  C9_cleanup s9 "job1" (Or.inl (by decide))

/-! Claim C10. -/

/-- C10: on the fatal-error path (after any number of completed stages), the
durable row is written with `completed = False` and only its status string
set to `error`, so a durable-tier results read answers the 400 Analysis not
complete error; the in-memory record of the same job has `completed = True`,
so an in-memory results read serves a (partial) results response. -/
theorem C10_error_path_tiers (q msg : String) (ev : Fin 6 → StageEvent)
    (se : StageEvent) (now : Nat) (k : Fin 7) :
    ((dbFindJob "job1" (runAnalysis "job1" q ⟨ev, se, some k, msg⟩ now emptyDb).db.jobs).map
      (fun row => (row.completed, row.status))) = some (false, "error") ∧
    ((dbFindJob "job1" (runAnalysis "job1" q ⟨ev, se, some k, msg⟩ now emptyDb).db.jobs).map
      (fun row => resultsFromDb row (dbReportsFor "job1"
        (runAnalysis "job1" q ⟨ev, se, some k, msg⟩ now emptyDb).db))) =
      some (Except.error (400, "Analysis not complete")) ∧
    (runAnalysis "job1" q ⟨ev, se, some k, msg⟩ now emptyDb).job.completed = true ∧
    resultsFromMem (runAnalysis "job1" q ⟨ev, se, some k, msg⟩ now emptyDb).job =
      Except.ok
        { id := (runAnalysis "job1" q ⟨ev, se, some k, msg⟩ now emptyDb).job.id
          reports := (runAnalysis "job1" q ⟨ev, se, some k, msg⟩ now emptyDb).job.reports
          question := (runAnalysis "job1" q ⟨ev, se, some k, msg⟩ now emptyDb).job.question
          completed_at :=
            (runAnalysis "job1" q ⟨ev, se, some k, msg⟩ now emptyDb).job.completed_at
          errors := (runAnalysis "job1" q ⟨ev, se, some k, msg⟩ now emptyDb).job.errors } := by
  refine ⟨?_, ?_, rfl, ?_⟩
  · fin_cases k <;> rfl
  · fin_cases k <;> rfl
  · rw [resultsFromMem,
      if_pos (show (runAnalysis "job1" q ⟨ev, se, some k, msg⟩ now emptyDb).job.completed
        = true from rfl)]

end RS10X
